import Mathlib

/-
Shallow embedding of the query-building, connection-handling and
correlation logic of the threat_intel_graph repository
(src/api/services/ioc_service.py, src/api/services/threat_service.py,
src/api/models/ioc.py, src/api/models/threat_actor.py,
src/database/neo4j/connection.py), together with theorems settling the
frozen claims about it.  Python floats are embedded as rationals, Python
dicts as association lists in insertion order, and raised exceptions as
`Except.error`.
-/

namespace ThreatIntel

/-! ### Threat-level derivation (IOCService._calculate_threat_level) -/

/-- Embeds `IOCService._calculate_threat_level` (src/api/services/ioc_service.py,
lines 330-341): an if/elif chain over the indicator count and the maximal
confidence. -/
def calculateThreatLevel (ioc_count : ℕ) (max_confidence : ℚ) : String :=
  if ioc_count = 0 then "unknown"
  else if 10 ≤ ioc_count ∧ (0.8 : ℚ) ≤ max_confidence then "critical"
  else if 5 ≤ ioc_count ∧ (0.6 : ℚ) ≤ max_confidence then "high"
  else if 2 ≤ ioc_count ∧ (0.4 : ℚ) ≤ max_confidence then "medium"
  else "low"

/-- Decision table written from the spec's words (spec §4.4): 0 indicators ⇒
unknown; ≥10 indicators and maxConfidence ≥ 0.8 ⇒ critical; ≥5 and ≥0.6 ⇒
high; ≥2 and ≥0.4 ⇒ medium; else low.  Introduced only to be compared with
`calculateThreatLevel`, which is embedded from the source. -/
def deriveThreatLevelSpec (indicatorCount : ℕ) (maxConfidence : ℚ) : String :=
  if indicatorCount = 0 then "unknown"
  else if 10 ≤ indicatorCount ∧ (0.8 : ℚ) ≤ maxConfidence then "critical"
  else if 5 ≤ indicatorCount ∧ (0.6 : ℚ) ≤ maxConfidence then "high"
  else if 2 ≤ indicatorCount ∧ (0.4 : ℚ) ≤ maxConfidence then "medium"
  else "low"

/-- Rank of a threat level under the ordering
unknown < low < medium < high < critical (spec §8). -/
def levelRank (level : String) : ℕ :=
  if level = "unknown" then 0
  else if level = "low" then 1
  else if level = "medium" then 2
  else if level = "high" then 3
  else 4

/-! ### Parameter values, rows and the store interface -/

/-- Value bound to a named query parameter, or held in a returned record:
a string, a rational (Python float), a natural, a node (property map), or a
list.  `none` marks Python `None`. -/
inductive PValue where
  | s (v : String)
  | q (v : ℚ)
  | n (v : ℕ)
  | node (props : List (String × PValue))
  | list (items : List PValue)

/-- A row returned by the driver: a field-name-to-value record. -/
abbrev Row := List (String × PValue)

/-- The backend store: takes statement text and the named-parameter map,
returns rows or raises (`Except.error`). -/
abbrev Store := String → List (String × PValue) → Except String (List Row)

/-- Field lookup in a record / parameter map (Python `dict` access). -/
def lookupField (k : String) (m : List (String × PValue)) : Option PValue :=
  (m.find? (fun kv => kv.1 == k)).map (fun kv => kv.2)

/-! ### Connection lifecycle (src/database/neo4j/connection.py)

The driver handle is abstracted to a numeric identity so that
re-establishment of a connection is observable; `nextId` supplies fresh
identities.  The success of the driver's trial `RETURN 1` runs is supplied
as explicit booleans (`connectOk`, `runOk`). -/

/-- State of `Neo4jConnection`: the cached driver handle and the
`_connected` flag. -/
structure ConnState where
  driver : Option ℕ := none
  connected : Bool := false
  nextId : ℕ := 0
deriving DecidableEq

/-- Embeds `Neo4jConnection.connect` (lines 18-45): a new driver object is
assigned, then a trial statement runs; on success `_connected := true` and
the call returns true, on exception `_connected := false` and the call
returns false. -/
def connect (connectOk : Bool) (s : ConnState) : Bool × ConnState :=
  let s' : ConnState := { s with driver := some s.nextId, nextId := s.nextId + 1 }
  if connectOk then (true, { s' with connected := true })
  else (false, { s' with connected := false })

/-- Embeds `Neo4jConnection.get_session` (lines 51-55): connects when the
driver is absent or the flag is down, then returns a session of the current
driver (identified with the driver handle).  The third component records
whether `connect` was invoked. -/
def get_session (connectOk : Bool) (s : ConnState) : Option ℕ × ConnState × Bool :=
  if s.driver = none ∨ s.connected = false then
    let (_, s') := connect connectOk s
    (s'.driver, s', true)
  else (s.driver, s, false)

/-- Embeds `Neo4jConnection.close` (lines 57-62): the flag is cleared only
when a driver is present. -/
def closeConn (s : ConnState) : ConnState :=
  match s.driver with
  | some _ => { s with connected := false }
  | none => s

/-- Embeds `Neo4jConnection.health_check` (lines 64-75): takes a session,
runs a trivial statement, returns its success; every exception is caught and
yields false.  No field of the state is touched beyond what `get_session`
does. -/
def health_check (connectOk runOk : Bool) (s : ConnState) : Bool × ConnState :=
  match (get_session connectOk s).1 with
  | none => (false, (get_session connectOk s).2.1)
  | some _ =>
    if runOk then (true, (get_session connectOk s).2.1)
    else (false, (get_session connectOk s).2.1)

/-- Embeds module-level `execute_query` (lines 87-102): if `is_connected()`
is false return `[]` at once (no connection attempt); else take a session
(`[]` when it is `None`), run the statement, and return `[]` on any
exception. -/
def execute_query (connectOk : Bool) (s : ConnState) (store : Store)
    (query : String) (parameters : List (String × PValue)) : List Row × ConnState :=
  if s.connected = false then ([], s)
  else
    match (get_session connectOk s).1 with
    | none => ([], (get_session connectOk s).2.1)
    | some _ =>
      match store query parameters with
      | Except.ok rows => (rows, (get_session connectOk s).2.1)
      | Except.error _ => ([], (get_session connectOk s).2.1)

/-- Embeds module-level `execute_write_query` (lines 105-120), identical in
shape to `execute_query`. -/
def execute_write_query (connectOk : Bool) (s : ConnState) (store : Store)
    (query : String) (parameters : List (String × PValue)) : List Row × ConnState :=
  if s.connected = false then ([], s)
  else
    match (get_session connectOk s).1 with
    | none => ([], (get_session connectOk s).2.1)
    | some _ =>
      match store query parameters with
      | Except.ok rows => (rows, (get_session connectOk s).2.1)
      | Except.error _ => ([], (get_session connectOk s).2.1)

/-! ### IOC search request model (src/api/models/ioc.py) -/

/-- Embeds the `IOCType` enum (lines 9-19). -/
inductive IOCType where
  | ip_address | domain | url | email | hash
  | file_path | registry_key | mutex | certificate
deriving DecidableEq

/-- The `.value` string of an `IOCType` member. -/
def IOCType.value : IOCType → String
  | .ip_address => "ip_address"
  | .domain => "domain"
  | .url => "url"
  | .email => "email"
  | .hash => "hash"
  | .file_path => "file_path"
  | .registry_key => "registry_key"
  | .mutex => "mutex"
  | .certificate => "certificate"

/-- Parses a string into an `IOCType` member, as pydantic does when
validating an `IOCType` field. -/
def iocTypeOfString (v : String) : Option IOCType :=
  if v = "ip_address" then some .ip_address
  else if v = "domain" then some .domain
  else if v = "url" then some .url
  else if v = "email" then some .email
  else if v = "hash" then some .hash
  else if v = "file_path" then some .file_path
  else if v = "registry_key" then some .registry_key
  else if v = "mutex" then some .mutex
  else if v = "certificate" then some .certificate
  else none

/-- Embeds `IOCSearchRequest` (lines 69-78) with its field defaults:
`confidence_min` defaults to 0.0, `limit` to 100, `offset` to 0. -/
structure IOCSearchRequest where
  asset_id : Option String := none
  ioc_type : Option IOCType := none
  threat_actor : Option String := none
  campaign : Option String := none
  confidence_min : Option ℚ := some 0
  limit : ℕ := 100
  offset : ℕ := 0
deriving DecidableEq

/-- The field names `IOCSearchRequest` declares. -/
def iocSearchRequestFields : List String :=
  ["asset_id", "ioc_type", "threat_actor", "campaign", "confidence_min", "limit", "offset"]

/-- Reads an `Optional[str]` pydantic field from the input map: absent ⇒
default `None`, present string ⇒ that string, present non-string ⇒
validation failure. -/
def parseOptStr (k : String) (m : List (String × PValue)) : Option (Option String) :=
  match lookupField k m with
  | Option.none => some none
  | some (PValue.s v) => some (some v)
  | some _ => none

/-- Embeds pydantic construction of `IOCSearchRequest` from a field map:
each declared field is read and validated against its `Field` constraints
(`confidence_min` in [0,1], `limit` in [1,1000], `offset` ≥ 0), defaults
apply when a field is absent, and — the pydantic default configuration —
keys that match no declared field are ignored.  `none` is a
ValidationError. -/
def parseIOCSearchRequest (m : List (String × PValue)) : Option IOCSearchRequest := do
  let asset_id ← parseOptStr "asset_id" m
  let ioc_type ← (match lookupField "ioc_type" m with
    | Option.none => some none
    | some (PValue.s v) => (iocTypeOfString v).map some
    | some _ => none)
  let threat_actor ← parseOptStr "threat_actor" m
  let campaign ← parseOptStr "campaign" m
  let confidence_min ← (match lookupField "confidence_min" m with
    | Option.none => some (some 0)
    | some (PValue.q v) => if 0 ≤ v ∧ v ≤ 1 then some (some v) else none
    | some _ => none)
  let limit ← (match lookupField "limit" m with
    | Option.none => some 100
    | some (PValue.n v) => if 1 ≤ v ∧ v ≤ 1000 then some v else none
    | some _ => none)
  let offset ← (match lookupField "offset" m with
    | Option.none => some 0
    | some (PValue.n v) => some v
    | some _ => none)
  some { asset_id, ioc_type, threat_actor, campaign, confidence_min, limit, offset }

/-! ### IOC search query building (IOCService.search_iocs, lines 85-172) -/

/-- The `" AND ".join(...)` of the built where-conditions. -/
def joinAnd (conds : List String) : String :=
  String.intercalate " AND " conds

/-- Embeds the `where_conditions` list built in `search_iocs` (lines
91-114), in the source's append order. -/
def iocWhereConditions (r : IOCSearchRequest) : List String :=
  (match r.asset_id with
    | some _ => ["(a:Asset \x7bid: $asset_id\x7d)-[:EXPOSED_TO|:OBSERVED_ON]-(ioc:IOC)"]
    | none => ["(ioc:IOC)"]) ++
  (match r.ioc_type with
    | some _ => ["ioc.type = $ioc_type"]
    | none => []) ++
  (match r.threat_actor with
    | some _ => ["(ioc)-[:USED_BY]->(ta:ThreatActor \x7bname: $threat_actor\x7d)"]
    | none => []) ++
  (match r.campaign with
    | some _ => ["(ioc)-[:INVOLVES]->(c:Campaign \x7bname: $campaign\x7d)"]
    | none => []) ++
  (match r.confidence_min with
    | some _ => ["ioc.confidence >= $confidence_min"]
    | none => [])

/-- Embeds the `parameters` dict built in `search_iocs` alongside the
conditions (insertion order), before offset/limit are added. -/
def iocSearchParameters (r : IOCSearchRequest) : List (String × PValue) :=
  (match r.asset_id with
    | some v => [("asset_id", PValue.s v)]
    | none => []) ++
  (match r.ioc_type with
    | some t => [("ioc_type", PValue.s t.value)]
    | none => []) ++
  (match r.threat_actor with
    | some v => [("threat_actor", PValue.s v)]
    | none => []) ++
  (match r.campaign with
    | some v => [("campaign", PValue.s v)]
    | none => []) ++
  (match r.confidence_min with
    | some v => [("confidence_min", PValue.q v)]
    | none => [])

/-- The parameters dict after `parameters.update({"offset": ..., "limit": ...})`
(lines 136-139). -/
def iocFullParameters (r : IOCSearchRequest) : List (String × PValue) :=
  iocSearchParameters r ++ [("offset", PValue.n r.offset), ("limit", PValue.n r.limit)]

/-- Embeds `count_params = {k: v for k, v in parameters.items() if k not in
["offset", "limit"]}` (line 156). -/
def iocCountParameters (r : IOCSearchRequest) : List (String × PValue) :=
  (iocFullParameters r).filter (fun kv => !(kv.1 == "offset" || kv.1 == "limit"))

/-- Embeds the paged statement of `search_iocs` (lines 116-134): the
source's `if where_conditions:` branch (the condition list is never empty,
its first entry is unconditional). -/
def iocSearchQuery (r : IOCSearchRequest) : String :=
  if iocWhereConditions r = [] then
    "\n                MATCH (ioc:IOC)\n                RETURN ioc\n                ORDER BY ioc.confidence DESC\n                SKIP $offset\n                LIMIT $limit\n                "
  else
    "\n                MATCH (ioc:IOC)\n                WHERE " ++ joinAnd (iocWhereConditions r) ++
    "\n                RETURN ioc\n                ORDER BY ioc.confidence DESC\n                SKIP $offset\n                LIMIT $limit\n                "

/-- Embeds the count statement of `search_iocs` (lines 145-155). -/
def iocCountQuery (r : IOCSearchRequest) : String :=
  if iocWhereConditions r = [] then
    "\n                MATCH (ioc:IOC)\n                RETURN count(ioc) as total_count\n                "
  else
    "\n                MATCH (ioc:IOC)\n                WHERE " ++ joinAnd (iocWhereConditions r) ++
    "\n                RETURN count(ioc) as total_count\n                "

/-- The part the paged and the count statements share: the MATCH line and the
WHERE clause over the built conditions. -/
def iocMatchWhere (r : IOCSearchRequest) : String :=
  "\n                MATCH (ioc:IOC)\n                WHERE " ++ joinAnd (iocWhereConditions r)

/-- Tail the paged statement appends after the shared part. -/
def iocPagedTail : String :=
  "\n                RETURN ioc\n                ORDER BY ioc.confidence DESC\n                SKIP $offset\n                LIMIT $limit\n                "

/-- Tail the count statement appends after the shared part. -/
def iocCountTail : String :=
  "\n                RETURN count(ioc) as total_count\n                "

/-! ### IOC search pipeline (IOCService.search_iocs, lines 141-172) -/

/-- The shape of `IOCSearchResponse` (src/api/models/ioc.py, lines 81-87),
with each returned IOC abstracted to the node returned under the `ioc`
field of its row. -/
structure IOCSearchResponse where
  iocs : List PValue
  total_count : ℕ
  search_params : IOCSearchRequest

/-- Embeds `IOC(**dict(record["ioc"]))` on one row: the `ioc` field must be
present and be a node, else an exception (`KeyError` / pydantic
ValidationError) is raised; the node payload itself is kept abstract. -/
def parseIOCRow (row : Row) : Except String PValue :=
  match lookupField "ioc" row with
  | some (PValue.node props) => Except.ok (PValue.node props)
  | some _ => Except.error "ValidationError"
  | none => Except.error "KeyError: ioc"

/-- The body of the `try` block of `search_iocs` (lines 141-164): run the
paged statement, map rows to IOCs, run the count statement on the same
filters without offset/limit, read `total_count` from the first count row
(0 when there is none).  Every raise surfaces as `Except.error`. -/
def searchIOCsCore (connectOk : Bool) (s : ConnState) (store : Store)
    (r : IOCSearchRequest) : Except String (List PValue × ℕ) := do
  let paged := execute_query connectOk s store (iocSearchQuery r) (iocFullParameters r)
  let iocs ← paged.1.mapM parseIOCRow
  let countRows :=
    (execute_query connectOk paged.2 store (iocCountQuery r) (iocCountParameters r)).1
  let total ← (match countRows with
    | [] => Except.ok 0
    | row :: _ =>
      match lookupField "total_count" row with
      | some (PValue.n k) => Except.ok k
      | some _ => Except.error "ValidationError: total_count"
      | none => Except.error "KeyError: total_count")
  Except.ok (iocs, total)

/-- Embeds `IOCService.search_iocs` (lines 85-172): the `try` body, with the
`except` clause returning an empty response carrying the request (lines
166-172). -/
def search_iocs (connectOk : Bool) (s : ConnState) (store : Store)
    (r : IOCSearchRequest) : IOCSearchResponse :=
  match searchIOCsCore connectOk s store r with
  | Except.ok (iocs, total) => { iocs := iocs, total_count := total, search_params := r }
  | Except.error _ => { iocs := [], total_count := 0, search_params := r }

/-! ### IOC creation (IOCService.create_ioc, lines 174-216) -/

/-- The CREATE statement text of `create_ioc` (lines 179-193). -/
def iocCreateQuery : String :=
  "\n            CREATE (ioc:IOC \x7b\n                id: $id,\n                type: $type,\n                value: $value,\n                category: $category,\n                confidence: $confidence,\n                first_seen: $first_seen,\n                last_seen: $last_seen,\n                source: $source,\n                description: $description,\n                context: $context\n            \x7d)\n            RETURN ioc\n            "

/-- Embeds `IOCService.create_ioc` (lines 174-216), with the entity-to-map
step abstracted: `parameters` stands for the map built on lines 195-206.
The write runs through `execute_write_query`; a non-empty result returns its
first row, an empty one raises the generic `Exception("Failed to create
IOC")`, which the `except` clause re-raises. -/
def create_ioc (connectOk : Bool) (s : ConnState) (store : Store)
    (parameters : List (String × PValue)) : Except String Row :=
  match (execute_write_query connectOk s store iocCreateQuery parameters).1 with
  | [] => Except.error "Failed to create IOC"
  | row :: _ => Except.ok row

/-! ### Correlation (IOCService.correlate_ioc_with_asset, lines 218-236)

The graph store state is embedded as labeled nodes plus a list of typed
directed relationships (a multigraph, as the backend's CREATE allows
parallel relationships). -/

/-- Graph store state: nodes as (label, id) pairs, relationships as
(source-node id, type, target-node id) triples. -/
structure GraphState where
  nodes : List (String × String)
  rels : List (String × String × String)
deriving DecidableEq

/-- Embeds the statement of `correlate_ioc_with_asset` (lines 223-228) under
Cypher semantics: `MATCH` both endpoint nodes, then `CREATE
(a)-[:EXPOSED_TO]->(ioc)` — CREATE always adds a fresh relationship for the
matched pair, it never deduplicates.  Returns the new state and the
truthiness of the result (the `bool(result)` on line 231); when either
MATCH finds nothing the statement yields no row and writes nothing. -/
def correlate_ioc_with_asset (g : GraphState) (ioc_id asset_id : String) :
    GraphState × Bool :=
  if ("IOC", ioc_id) ∈ g.nodes ∧ ("Asset", asset_id) ∈ g.nodes then
    ({ g with rels := g.rels ++ [(asset_id, "EXPOSED_TO", ioc_id)] }, true)
  else (g, false)

/-- The `MERGE (a)-[:EXPOSED_TO]->(ioc)` form of the same write, as the
streaming consumer issues it for the identical relationship
(src/streaming/kafka_consumer.py, line 346): MERGE adds the relationship
only when it is absent. -/
def correlateMerge (g : GraphState) (ioc_id asset_id : String) :
    GraphState × Bool :=
  if ("IOC", ioc_id) ∈ g.nodes ∧ ("Asset", asset_id) ∈ g.nodes then
    (if (asset_id, "EXPOSED_TO", ioc_id) ∈ g.rels then g
     else { g with rels := g.rels ++ [(asset_id, "EXPOSED_TO", ioc_id)] }, true)
  else (g, false)

/-- Number of EXPOSED_TO relationships between one asset and one IOC. -/
def exposedCount (g : GraphState) (asset_id ioc_id : String) : ℕ :=
  (g.rels.filter (fun rel => rel == (asset_id, "EXPOSED_TO", ioc_id))).length

/-! ### Relationship traversal (IOCService.get_ioc_relationships, lines 238-281) -/

/-- The traversal statement text of `get_ioc_relationships` (lines 243-252),
verbatim: the hop bound is spliced as the bound parameter `$depth` inside
the variable-length pattern. -/
def iocRelationshipsQuery : String :=
  "\n            MATCH path = (ioc:IOC \x7bid: $ioc_id\x7d)-[*1..$depth]-(connected)\n            WHERE connected <> ioc\n            RETURN \n                startNode(path) as source,\n                endNode(path) as target,\n                relationships(path) as relationships,\n                length(path) as path_length\n            ORDER BY path_length\n            "

/-- Whether `pat` is an initial segment of `cs`. -/
def leadsWith : List Char → List Char → Bool
  | [], _ => true
  | _ :: _, [] => false
  | a :: pat, b :: cs => a == b && leadsWith pat cs

/-- Whether `pat` occurs contiguously inside `cs`. -/
def containsChars (pat : List Char) : List Char → Bool
  | [] => leadsWith pat []
  | c :: cs => leadsWith pat (c :: cs) || containsChars pat cs

/-- Modelled from the spec: the graph backend is an external collaborator
(not under src/), and spec §9 records that it does not accept a hop count
bound as a query parameter — «hop counts typically must be literal».  This
predicate detects a statement whose variable-length bound is a parameter
(the text `..$` inside the pattern). -/
def hopBoundIsParameter (stmt : String) : Bool :=
  containsChars "..$".data stmt.data

/-- Modelled from the spec: a store behaving as spec §9 describes the
backend — it rejects (raises on) any statement whose variable-length hop
bound is a bound parameter, and is otherwise immaterial to the claim. -/
def rejectingStore : Store := fun q _ =>
  if hopBoundIsParameter q then Except.error "SyntaxError: parameterized hop bound"
  else Except.ok []

/-- One entry of the list `get_ioc_relationships` builds per returned row
(lines 262-274). -/
structure RelRecord where
  source : String
  target : String
  source_type : String
  target_type : String
  rels : List PValue
  path_length : ℕ
  source_properties : List (String × PValue)
  target_properties : List (String × PValue)

/-- Property lookup on a node value. -/
def nodeProp (v : PValue) (k : String) : Option PValue :=
  match v with
  | PValue.node props => (props.find? (fun kv => kv.1 == k)).map (fun kv => kv.2)
  | _ => none

/-- Embeds `source.get("__labels__", ["Unknown"])[0]` (lines 266-267). -/
def nodeLabel (v : PValue) : Except String String :=
  match nodeProp v "__labels__" with
  | some (PValue.list (PValue.s l :: _)) => Except.ok l
  | some _ => Except.error "TypeError: labels"
  | none => Except.ok "Unknown"

/-- The properties of a node minus the dunder keys (lines 271-272). -/
def plainProps (v : PValue) : List (String × PValue) :=
  match v with
  | PValue.node props => props.filter (fun kv => !(kv.1.startsWith "__"))
  | _ => []

/-- Builds one `RelRecord` from a returned row (the loop body, lines
257-275); a missing or ill-typed field raises. -/
def relRecordOfRow (row : Row) : Except String RelRecord := do
  let src ← (match lookupField "source" row with
    | some v => Except.ok v
    | none => Except.error "KeyError: source")
  let tgt ← (match lookupField "target" row with
    | some v => Except.ok v
    | none => Except.error "KeyError: target")
  let srcId ← (match nodeProp src "id" with
    | some (PValue.s v) => Except.ok v
    | _ => Except.error "KeyError: id")
  let tgtId ← (match nodeProp tgt "id" with
    | some (PValue.s v) => Except.ok v
    | _ => Except.error "KeyError: id")
  let srcType ← nodeLabel src
  let tgtType ← nodeLabel tgt
  let rels ← (match lookupField "relationships" row with
    | some (PValue.list items) => Except.ok items
    | _ => Except.error "KeyError: relationships")
  let plen ← (match lookupField "path_length" row with
    | some (PValue.n k) => Except.ok k
    | _ => Except.error "KeyError: path_length")
  Except.ok { source := srcId, target := tgtId, source_type := srcType,
              target_type := tgtType, rels := rels, path_length := plen,
              source_properties := plainProps src, target_properties := plainProps tgt }

/-- Embeds `IOCService.get_ioc_relationships` (lines 238-281): run the
traversal statement through `execute_query` with `ioc_id` and `depth` as
named parameters, build one record per row; any raise is caught and `[]` is
returned. -/
def get_ioc_relationships (connectOk : Bool) (s : ConnState) (store : Store)
    (ioc_id : String) (depth : ℕ) : List RelRecord :=
  let (results, _) := execute_query connectOk s store iocRelationshipsQuery
    [("ioc_id", PValue.s ioc_id), ("depth", PValue.n depth)]
  match results.mapM relRecordOfRow with
  | Except.ok records => records
  | Except.error _ => []

/-! ### Threat actor search (src/api/models/threat_actor.py,
src/api/services/threat_service.py lines 52-120) -/

/-- Embeds the `ThreatActorMotivation` enum (lines 9-17). -/
inductive ThreatActorMotivation where
  | espionage | financial | hacktivism | terrorism | warfare | criminal | unknown
deriving DecidableEq

/-- The `.value` string of a `ThreatActorMotivation` member. -/
def ThreatActorMotivation.value : ThreatActorMotivation → String
  | .espionage => "espionage"
  | .financial => "financial"
  | .hacktivism => "hacktivism"
  | .terrorism => "terrorism"
  | .warfare => "warfare"
  | .criminal => "criminal"
  | .unknown => "unknown"

/-- Embeds the `ThreatActorStatus` enum (lines 20-25). -/
inductive ThreatActorStatus where
  | active | inactive | disrupted | unknown
deriving DecidableEq

/-- The `.value` string of a `ThreatActorStatus` member. -/
def ThreatActorStatus.value : ThreatActorStatus → String
  | .active => "active"
  | .inactive => "inactive"
  | .disrupted => "disrupted"
  | .unknown => "unknown"

/-- Embeds `ThreatActorSearchRequest` (lines 66-75) with its defaults. -/
structure ThreatActorSearchRequest where
  name : Option String := none
  country : Option String := none
  motivation : Option ThreatActorMotivation := none
  status : Option ThreatActorStatus := none
  campaign : Option String := none
  limit : ℕ := 100
  offset : ℕ := 0
deriving DecidableEq

/-- Embeds the `where_conditions` list of `search_threat_actors`
(src/api/services/threat_service.py, lines 58-79), in the source's append
order; the first entry is unconditional. -/
def taWhereConditions (t : ThreatActorSearchRequest) : List String :=
  ["(ta:ThreatActor)"] ++
  (match t.name with
    | some _ => ["(ta.name CONTAINS $name OR $name IN ta.aliases)"]
    | none => []) ++
  (match t.country with
    | some _ => ["ta.country = $country"]
    | none => []) ++
  (match t.motivation with
    | some _ => ["ta.motivation = $motivation"]
    | none => []) ++
  (match t.status with
    | some _ => ["ta.status = $status"]
    | none => []) ++
  (match t.campaign with
    | some _ => ["(ta)-[:BELONGS_TO]->(c:Campaign \x7bname: $campaign\x7d)"]
    | none => [])

/-- Embeds the `parameters` dict of `search_threat_actors` before
offset/limit are added. -/
def taSearchParameters (t : ThreatActorSearchRequest) : List (String × PValue) :=
  (match t.name with
    | some v => [("name", PValue.s v)]
    | none => []) ++
  (match t.country with
    | some v => [("country", PValue.s v)]
    | none => []) ++
  (match t.motivation with
    | some v => [("motivation", PValue.s v.value)]
    | none => []) ++
  (match t.status with
    | some v => [("status", PValue.s v.value)]
    | none => []) ++
  (match t.campaign with
    | some v => [("campaign", PValue.s v)]
    | none => [])

/-- The parameters dict after the offset/limit update (lines 91-94). -/
def taFullParameters (t : ThreatActorSearchRequest) : List (String × PValue) :=
  taSearchParameters t ++ [("offset", PValue.n t.offset), ("limit", PValue.n t.limit)]

/-- Embeds the count-parameter comprehension of `search_threat_actors`
(line 104). -/
def taCountParameters (t : ThreatActorSearchRequest) : List (String × PValue) :=
  (taFullParameters t).filter (fun kv => !(kv.1 == "offset" || kv.1 == "limit"))

/-- The part the paged and the count statements of `search_threat_actors`
share: the MATCH over the joined conditions. -/
def taMatchWhere (t : ThreatActorSearchRequest) : String :=
  "\n            MATCH " ++ joinAnd (taWhereConditions t)

/-- Tail of the paged statement of `search_threat_actors` (lines 83-89). -/
def taPagedTail : String :=
  "\n            RETURN ta\n            ORDER BY ta.name\n            SKIP $offset\n            LIMIT $limit\n            "

/-- Tail of the count statement of `search_threat_actors` (lines 100-103). -/
def taCountTail : String :=
  "\n            RETURN count(ta) as total_count\n            "

/-- Embeds the paged statement of `search_threat_actors` (lines 82-89). -/
def taSearchQuery (t : ThreatActorSearchRequest) : String :=
  "\n            MATCH " ++ joinAnd (taWhereConditions t) ++
  "\n            RETURN ta\n            ORDER BY ta.name\n            SKIP $offset\n            LIMIT $limit\n            "

/-- Embeds the count statement of `search_threat_actors` (lines 100-103). -/
def taCountQuery (t : ThreatActorSearchRequest) : String :=
  "\n            MATCH " ++ joinAnd (taWhereConditions t) ++
  "\n            RETURN count(ta) as total_count\n            "

/-! ### Graph export (IOCService.get_graph_export, lines 283-327) -/

/-- The `" OR ".join(...)` of built disjuncts. -/
def joinOr (conds : List String) : String :=
  String.intercalate " OR " conds

/-- Embeds the node statement of `get_graph_export` (lines 289-294): the
caller-supplied type names are formatted straight into the text
(`f"n:\x7bnode_type\x7d"`); an absent or empty list skips the WHERE clause
(Python truthiness). -/
def nodeQueryText (node_types : Option (List String)) : String :=
  let base := "MATCH (n)"
  let base := match node_types with
    | some (t :: ts) => base ++ " WHERE " ++ joinOr ((t :: ts).map (fun nt => "n:" ++ nt))
    | _ => base
  base ++ " RETURN n"

/-- Embeds the relationship statement of `get_graph_export` (lines 299-304):
the caller-supplied type names are formatted straight into the text
(`f"type(r) = \x27\x7brel_type\x7d\x27"`). -/
def relQueryText (relationship_types : Option (List String)) : String :=
  let base := "MATCH (a)-[r]->(b)"
  let base := match relationship_types with
    | some (t :: ts) =>
      base ++ " WHERE " ++ joinOr ((t :: ts).map (fun rt => "type(r) = \x27" ++ rt ++ "\x27"))
    | _ => base
  base ++ " RETURN a, r, b"

/-! ### Theorems -/

/-- C2: `_calculate_threat_level` is exactly the spec's decision table: for
every indicator count and every confidence in [0,1], 0 indicators gives
"unknown", else ≥10 with confidence ≥0.8 gives "critical", else ≥5 with
≥0.6 gives "high", else ≥2 with ≥0.4 gives "medium", otherwise "low"; in
particular (0, 0.0) ↦ "unknown", (12, 0.85) ↦ "critical",
(1, 0.3) ↦ "low". -/
theorem threatLevel_matches_spec_table :
    (∀ (n : ℕ) (c : ℚ), 0 ≤ c → c ≤ 1 →
      calculateThreatLevel n c = deriveThreatLevelSpec n c) ∧
    calculateThreatLevel 0 0 = "unknown" ∧
    calculateThreatLevel 12 0.85 = "critical" ∧
    calculateThreatLevel 1 0.3 = "low" := by
  refine ⟨fun n c _ _ => rfl, ?_, ?_, ?_⟩ <;> norm_num [calculateThreatLevel]

/-- Witness for C2: the decision-table equality instantiated at the
concrete input (12, 0.85), the hypotheses discharged there. -/
theorem threatLevel_matches_spec_table_witness :
    calculateThreatLevel 12 0.85 = deriveThreatLevelSpec 12 0.85 :=
  threatLevel_matches_spec_table.1 12 0.85 (by norm_num) (by norm_num)

/-- Helper: the rank of the computed threat level is a sum of indicators of
the three upward-closed threshold guards (the guards are nested: the
critical region lies inside the high region inside the medium region). -/
theorem levelRank_calculate_eq (n : ℕ) (c : ℚ) :
    levelRank (calculateThreatLevel n c) =
      if n = 0 then 0 else
        (if 2 ≤ n ∧ (0.4 : ℚ) ≤ c then 1 else 0) +
        (if 5 ≤ n ∧ (0.6 : ℚ) ≤ c then 1 else 0) +
        (if 10 ≤ n ∧ (0.8 : ℚ) ≤ c then 1 else 0) + 1 := by
  by_cases h0 : n = 0
  · simp [calculateThreatLevel, levelRank, h0]
  · by_cases hcr : 10 ≤ n ∧ (0.8 : ℚ) ≤ c
    · have hhi : 5 ≤ n ∧ (0.6 : ℚ) ≤ c :=
        ⟨le_trans (by norm_num) hcr.1, le_trans (by norm_num) hcr.2⟩
      have hme : 2 ≤ n ∧ (0.4 : ℚ) ≤ c :=
        ⟨le_trans (by norm_num) hcr.1, le_trans (by norm_num) hcr.2⟩
      simp [calculateThreatLevel, levelRank, h0, hcr, hhi, hme]
    · by_cases hhi : 5 ≤ n ∧ (0.6 : ℚ) ≤ c
      · have hme : 2 ≤ n ∧ (0.4 : ℚ) ≤ c :=
          ⟨le_trans (by norm_num) hhi.1, le_trans (by norm_num) hhi.2⟩
        simp [calculateThreatLevel, levelRank, h0, hcr, hhi, hme]
      · by_cases hme : 2 ≤ n ∧ (0.4 : ℚ) ≤ c
        · simp [calculateThreatLevel, levelRank, h0, hcr, hhi, hme]
        · simp [calculateThreatLevel, levelRank, h0, hcr, hhi, hme]

/-- C7: `_calculate_threat_level` is a pure total function on ℕ × ℚ and is
monotone non-decreasing in both arguments under the level ordering
unknown < low < medium < high < critical (ranked by `levelRank`): for
confidences in [0,1], n₁ ≤ n₂ and c₁ ≤ c₂ give
level(n₁,c₁) ≤ level(n₂,c₂). -/
theorem threatLevel_monotone (n₁ n₂ : ℕ) (c₁ c₂ : ℚ)
    (_hlo : 0 ≤ c₁) (_hhi : c₂ ≤ 1) (hn : n₁ ≤ n₂) (hc : c₁ ≤ c₂) :
    levelRank (calculateThreatLevel n₁ c₁) ≤ levelRank (calculateThreatLevel n₂ c₂) := by
  rw [levelRank_calculate_eq, levelRank_calculate_eq]
  by_cases h0 : n₁ = 0
  · rw [if_pos h0]
    exact Nat.zero_le _
  · rw [if_neg h0, if_neg (by omega : ¬ n₂ = 0)]
    have mono : ∀ (a : ℕ) (q : ℚ),
        (if a ≤ n₁ ∧ q ≤ c₁ then 1 else 0) ≤ (if a ≤ n₂ ∧ q ≤ c₂ then (1 : ℕ) else 0) := by
      intro a q
      split_ifs with h₁ h₂
      · exact le_refl 1
      · exact absurd ⟨le_trans h₁.1 hn, le_trans h₁.2 hc⟩ h₂
      · exact Nat.zero_le 1
      · exact le_refl 0
    have m1 := mono 2 0.4
    have m2 := mono 5 0.6
    have m3 := mono 10 0.8
    omega

/-- Witness for C7: monotonicity applied at (2, 0.5) ≤ (12, 0.9), the
hypotheses discharged there. -/
theorem threatLevel_monotone_witness :
    levelRank (calculateThreatLevel 2 0.5) ≤ levelRank (calculateThreatLevel 12 0.9) :=
  threatLevel_monotone 2 12 0.5 0.9 (by norm_num) (by norm_num) (by norm_num) (by norm_num)

/-- Helper: the IOC where-condition list is never empty — its first entry
(the asset pattern or the bare label pattern) is unconditional. -/
theorem iocWhereConditions_ne_nil (r : IOCSearchRequest) : iocWhereConditions r ≠ [] := by
  rcases r with ⟨a, it, ta, ca, cm, l, o⟩
  cases a <;> simp [iocWhereConditions]

/-- Helper: the paged IOC statement is the shared MATCH/WHERE part followed
by the ordering/pagination tail. -/
theorem iocSearchQuery_decomposes (r : IOCSearchRequest) :
    iocSearchQuery r = iocMatchWhere r ++ iocPagedTail := by
  unfold iocSearchQuery
  rw [if_neg (iocWhereConditions_ne_nil r)]
  rfl

/-- Helper: the count IOC statement is the shared MATCH/WHERE part followed
by the count tail. -/
theorem iocCountQuery_decomposes (r : IOCSearchRequest) :
    iocCountQuery r = iocMatchWhere r ++ iocCountTail := by
  unfold iocCountQuery
  rw [if_neg (iocWhereConditions_ne_nil r)]
  rfl

/-- Helper: stripping offset/limit from the full IOC parameter map gives
back exactly the filter bindings. -/
theorem iocCountParameters_eq (r : IOCSearchRequest) :
    iocCountParameters r = iocSearchParameters r := by
  rcases r with ⟨a, it, ta, ca, cm, l, o⟩
  cases a <;> cases it <;> cases ta <;> cases ca <;> cases cm <;> rfl

/-- Helper: stripping offset/limit from the full threat-actor parameter map
gives back exactly the filter bindings. -/
theorem taCountParameters_eq (t : ThreatActorSearchRequest) :
    taCountParameters t = taSearchParameters t := by
  rcases t with ⟨na, co, mo, st, ca, l, o⟩
  cases na <;> cases co <;> cases mo <;> cases st <;> cases ca <;> rfl

/-- C3: for every IOC search request and every threat-actor search request,
the count statement is built over exactly the same joined filter conditions
as the paged statement — the two texts share the whole MATCH/WHERE part and
differ only in their tails (RETURN entity / ORDER BY / SKIP / LIMIT versus
RETURN count) — and its parameter map is exactly the paged map minus the
`offset` and `limit` entries, so the count is computed over the same match
set as the page. -/
theorem count_statement_matches_paged (r : IOCSearchRequest) (t : ThreatActorSearchRequest) :
    iocSearchQuery r = iocMatchWhere r ++ iocPagedTail ∧
    iocCountQuery r = iocMatchWhere r ++ iocCountTail ∧
    iocFullParameters r =
      iocSearchParameters r ++ [("offset", PValue.n r.offset), ("limit", PValue.n r.limit)] ∧
    iocCountParameters r = iocSearchParameters r ∧
    taSearchQuery t = taMatchWhere t ++ taPagedTail ∧
    taCountQuery t = taMatchWhere t ++ taCountTail ∧
    taFullParameters t =
      taSearchParameters t ++ [("offset", PValue.n t.offset), ("limit", PValue.n t.limit)] ∧
    taCountParameters t = taSearchParameters t :=
  ⟨iocSearchQuery_decomposes r, iocCountQuery_decomposes r, rfl,
   iocCountParameters_eq r, rfl, rfl, rfl, taCountParameters_eq t⟩

/-- Helper: a lookup for a declared key is unaffected by appending an entry
under a different key. -/
theorem lookupField_append_single_ne (fk k : String) (v : PValue)
    (m : List (String × PValue)) (h : (k == fk) = false) :
    lookupField fk (m ++ [(k, v)]) = lookupField fk m := by
  unfold lookupField
  induction m with
  | nil => simp [List.find?, h]
  | cons kv rest ih =>
    by_cases hk : (kv.1 == fk) = true
    · simp [List.find?, hk]
    · simp only [List.cons_append, List.find?]
      rw [Bool.not_eq_true] at hk
      rw [hk]
      exact ih

/-- Helper: `parseOptStr` for a declared key is unaffected by appending an
entry under a different key. -/
theorem parseOptStr_append_unknown (fk k : String) (v : PValue)
    (m : List (String × PValue)) (h : (k == fk) = false) :
    parseOptStr fk (m ++ [(k, v)]) = parseOptStr fk m := by
  unfold parseOptStr
  rw [lookupField_append_single_ne fk k v m h]

/-- C5 counterexample: building a search request from a field map carrying
the unknown filter field "totally_unknown_filter" does not fail — pydantic's
default configuration ignores unknown keys — it succeeds and yields exactly
the request built without that field, so no InvalidFilterError (a type the
codebase nowhere defines) is ever raised. -/
theorem unknown_filter_field_accepted_cex :
    (parseIOCSearchRequest
      [("ioc_type", PValue.s "domain"), ("totally_unknown_filter", PValue.s "x")]).isSome = true ∧
    parseIOCSearchRequest
      [("ioc_type", PValue.s "domain"), ("totally_unknown_filter", PValue.s "x")] =
      parseIOCSearchRequest [("ioc_type", PValue.s "domain")] :=
  ⟨rfl, rfl⟩

/-- C5 amended: an unknown filter field is silently ignored at build time:
appending an entry whose key is not among the declared
`IOCSearchRequest` fields leaves the built request — and hence the built
statement and parameter map — unchanged; query building never fails on an
unknown field and no InvalidFilterError exists. -/
theorem unknown_filter_field_ignored (m : List (String × PValue)) (k : String) (v : PValue)
    (hk : k ∉ iocSearchRequestFields) :
    parseIOCSearchRequest (m ++ [(k, v)]) = parseIOCSearchRequest m := by
  have hne : ∀ fk, fk ∈ iocSearchRequestFields → (k == fk) = false := by
    intro fk hfk
    rw [beq_eq_false_iff_ne]
    intro he
    exact hk (he ▸ hfk)
  unfold parseIOCSearchRequest
  rw [parseOptStr_append_unknown "asset_id" k v m (hne "asset_id" (by decide)),
      parseOptStr_append_unknown "threat_actor" k v m (hne "threat_actor" (by decide)),
      parseOptStr_append_unknown "campaign" k v m (hne "campaign" (by decide)),
      lookupField_append_single_ne "ioc_type" k v m (hne "ioc_type" (by decide)),
      lookupField_append_single_ne "confidence_min" k v m (hne "confidence_min" (by decide)),
      lookupField_append_single_ne "limit" k v m (hne "limit" (by decide)),
      lookupField_append_single_ne "offset" k v m (hne "offset" (by decide))]

/-- Witness for C5's amended claim: appending the unknown field "foo" to a
concrete field map leaves the built request unchanged. -/
theorem unknown_filter_field_ignored_witness :
    parseIOCSearchRequest ([("campaign", PValue.s "APT-X")] ++ [("foo", PValue.s "bar")]) =
      parseIOCSearchRequest [("campaign", PValue.s "APT-X")] :=
  unknown_filter_field_ignored [("campaign", PValue.s "APT-X")] "foo" (PValue.s "bar")
    (by decide)

/-- C1 (failing at the graph-export operation): two export requests that set
the same filter — one relationship-type filter, one node-type filter — to
different values produce different statement texts, because
`get_graph_export` formats the caller-supplied type names straight into the
statement; the supplied value appears verbatim in the generated text instead
of in a parameter map.  (The search operations do bind their values as named
parameters; the export operation breaks the property.) -/
theorem graph_export_interpolates_values :
    relQueryText (some ["EXPOSED_TO"]) ≠ relQueryText (some ["USED_BY"]) ∧
    nodeQueryText (some ["IOC"]) ≠ nodeQueryText (some ["Asset"]) ∧
    relQueryText (some ["EXPOSED_TO"]) =
      "MATCH (a)-[r]->(b) WHERE type(r) = \x27EXPOSED_TO\x27 RETURN a, r, b" ∧
    nodeQueryText (some ["IOC"]) = "MATCH (n) WHERE n:IOC RETURN n" := by
  refine ⟨?_, ?_, rfl, rfl⟩ <;> decide

/-- C4 (failing): on a graph holding the nodes ioc-1 and asset-1 and no
relationship, running `correlate_ioc_with_asset("ioc-1","asset-1")` twice
leaves two EXPOSED_TO relationships between the pair — the statement uses
CREATE, which never deduplicates — while the MERGE form of the same write
(the one the streaming consumer issues) applied twice leaves exactly one. -/
theorem correlate_twice_duplicates_relationship :
    exposedCount
      ((correlate_ioc_with_asset
        (correlate_ioc_with_asset
          ⟨[("IOC", "ioc-1"), ("Asset", "asset-1")], []⟩ "ioc-1" "asset-1").1
        "ioc-1" "asset-1").1) "asset-1" "ioc-1" = 2 ∧
    exposedCount
      ((correlateMerge
        (correlateMerge
          ⟨[("IOC", "ioc-1"), ("Asset", "asset-1")], []⟩ "ioc-1" "asset-1").1
        "ioc-1" "asset-1").1) "asset-1" "ioc-1" = 1 := by
  refine ⟨?_, ?_⟩ <;> decide

/-- C6 (failing): the traversal statement of `get_ioc_relationships` splices
the hop bound into the variable-length pattern as the bound parameter
`$depth`; the backend rejects such a statement (spec §9), the failure is
swallowed into an empty row list, and the service returns `[]` — not the
scenario's two paths ordered by length. -/
theorem relationships_query_rejected_yields_empty :
    hopBoundIsParameter iocRelationshipsQuery = true ∧
    get_ioc_relationships true ⟨some 0, true, 1⟩ rejectingStore "ioc-1" 2 = [] := by
  refine ⟨by decide, ?_⟩
  rfl

/-- Helper: when the store raises on a statement, `execute_query` swallows
the failure and returns no rows. -/
theorem execute_query_fail_nil (connectOk : Bool) (s : ConnState) (store : Store)
    (q : String) (p : List (String × PValue)) (e : String)
    (he : store q p = Except.error e) :
    (execute_query connectOk s store q p).1 = [] := by
  unfold execute_query
  by_cases hc : s.connected = false
  · simp [hc]
  · rw [if_neg hc]
    cases hgs : (get_session connectOk s).1 <;> simp [he]

/-- C8: for every search request, when every store call fails (raises), the
search operation returns the empty result set — no IOCs and
`total_count = 0` — carrying the request back, instead of propagating a hard
error; the failure is only logged. -/
theorem search_degrades_to_empty_on_store_failure
    (connectOk : Bool) (s : ConnState) (store : Store) (r : IOCSearchRequest)
    (hfail : ∀ q p, ∃ e, store q p = Except.error e) :
    search_iocs connectOk s store r =
      { iocs := [], total_count := 0, search_params := r } := by
  obtain ⟨e₁, he₁⟩ := hfail (iocSearchQuery r) (iocFullParameters r)
  obtain ⟨e₂, he₂⟩ := hfail (iocCountQuery r) (iocCountParameters r)
  simp only [search_iocs, searchIOCsCore]
  rw [execute_query_fail_nil connectOk s store _ _ e₁ he₁,
      execute_query_fail_nil connectOk _ store _ _ e₂ he₂]
  rfl

/-- Witness for C8: a store that always raises makes a default search return
the empty response. -/
theorem search_degrades_to_empty_witness :
    search_iocs true {} (fun _ _ => Except.error "ServiceUnavailable") {} =
      { iocs := [], total_count := 0, search_params := {} } :=
  search_degrades_to_empty_on_store_failure true {}
    (fun _ _ => Except.error "ServiceUnavailable") {}
    (fun _ _ => ⟨"ServiceUnavailable", rfl⟩)

/-- C9 counterexample: from the state with cached driver 0 and the connected
flag set, a health check whose trivial statement fails returns false yet
leaves the state — including the flag — unchanged, and the next
`get_session` reuses driver 0 without invoking connect (third component
false), refuting «a failed health check invalidates the cached connection so
that the next call re-establishes it». -/
theorem failed_health_check_keeps_cached_connection_cex :
    health_check true false ⟨some 0, true, 1⟩ = (false, ⟨some 0, true, 1⟩) ∧
    (health_check true false ⟨some 0, true, 1⟩).2.connected = true ∧
    get_session true (health_check true false ⟨some 0, true, 1⟩).2 =
      (some 0, ⟨some 0, true, 1⟩, false) :=
  ⟨rfl, rfl, rfl⟩

/-- C9 amended: a failed health check returns false but does not invalidate
the cached connection — the state, flag included, is untouched and the next
`get_session` reuses the cached driver without reconnecting; the flag is
cleared only by `close` (with a driver present) or by a failed `connect`. -/
theorem failed_health_check_leaves_cache (connectOk : Bool) (s : ConnState) (d : ℕ)
    (hconn : s.connected = true) (hdrv : s.driver = some d) :
    health_check connectOk false s = (false, s) ∧
    get_session connectOk s = (some d, s, false) ∧
    (closeConn s).connected = false ∧
    ∀ s' : ConnState, (connect false s').2.connected = false := by
  have hgs : get_session connectOk s = (some d, s, false) := by
    unfold get_session
    rw [hdrv, hconn]
    simp
  refine ⟨?_, hgs, ?_, fun s' => rfl⟩
  · simp [health_check, hgs]
  · unfold closeConn
    rw [hdrv]

/-- Witness for C9's amended claim, at the state with cached driver 0 and
the flag set. -/
theorem failed_health_check_leaves_cache_witness :
    health_check true false ⟨some 0, true, 1⟩ = (false, ⟨some 0, true, 1⟩) ∧
    get_session true ⟨some 0, true, 1⟩ = (some 0, ⟨some 0, true, 1⟩, false) ∧
    (closeConn ⟨some 0, true, 1⟩).connected = false ∧
    ∀ s' : ConnState, (connect false s').2.connected = false :=
  failed_health_check_leaves_cache true ⟨some 0, true, 1⟩ 0 rfl rfl

/-- C10: `execute_query` and `execute_write_query` are total at the public
interface — with no established connection they return `[]` at once without
attempting to connect, and a store failure (raise) yields `[]` instead of
propagating — and in a process whose connection was never established,
`create_ioc` fails with the generic "Failed to create IOC" error, not a
ConnectionError. -/
theorem store_failures_never_propagate
    (connectOk : Bool) (s : ConnState) (store : Store) (q : String)
    (p params : List (String × PValue)) :
    (s.connected = false → execute_query connectOk s store q p = ([], s)) ∧
    (∀ e, store q p = Except.error e → (execute_query connectOk s store q p).1 = []) ∧
    (s.connected = false → execute_write_query connectOk s store q p = ([], s)) ∧
    (∀ e, store q p = Except.error e → (execute_write_query connectOk s store q p).1 = []) ∧
    (s.connected = false →
      create_ioc connectOk s store params = Except.error "Failed to create IOC") := by
  refine ⟨?_, ?_, ?_, ?_, ?_⟩
  · intro h
    simp [execute_query, h]
  · intro e he
    exact execute_query_fail_nil connectOk s store q p e he
  · intro h
    simp [execute_write_query, h]
  · intro e he
    unfold execute_write_query
    by_cases hc : s.connected = false
    · simp [hc]
    · rw [if_neg hc]
      cases hgs : (get_session connectOk s).1 <;> simp [he]
  · intro h
    simp [create_ioc, execute_write_query, h]

/-- Witness for C10: with the initial (never-connected) state and a raising
store, a query returns no rows and create fails with the generic error. -/
theorem store_failures_never_propagate_witness :
    execute_query true {} (fun _ _ => Except.error "down") "RETURN 1" [] = ([], {}) ∧
    create_ioc true {} (fun _ _ => Except.error "down") [] =
      Except.error "Failed to create IOC" :=
  ⟨(store_failures_never_propagate true {} (fun _ _ => Except.error "down")
      "RETURN 1" [] []).1 rfl,
   (store_failures_never_propagate true {} (fun _ _ => Except.error "down")
      "RETURN 1" [] []).2.2.2.2 rfl⟩

end ThreatIntel
